import Mathlib

/-!
Verification development for the akashi reconciliation core:
`scripts/reconcile_qdrant.py` (drift detector / repair enqueuer) and
`scripts/verify_exit_criteria.py` (durability gate), shallowly embedded in Lean.
-/

namespace Akashi

/-! ## Drift detection (reconcile_qdrant.py, main, lines 161-163)

`pg_ids = set(pg_map.keys())`
`missing_in_qdrant = sorted(pg_ids - qdrant_ids)`
`extra_in_qdrant   = sorted(qdrant_ids - pg_ids)`
-/

/-- `sorted(pg_ids - qdrant_ids)`: ids current in Postgres but absent from Qdrant. -/
def missing_in_qdrant (pg_ids qdrant_ids : Finset String) : List String :=
  (pg_ids \ qdrant_ids).sort (· ≤ ·)

/-- `sorted(qdrant_ids - pg_ids)`: ids present in Qdrant with no current Postgres row. -/
def extra_in_qdrant (pg_ids qdrant_ids : Finset String) : List String :=
  (qdrant_ids \ pg_ids).sort (· ≤ ·)

/-- **C1.** Drift is a pure set operation: for any finite id sets `P` (primary) and
`I` (index), `missing` is exactly `P \ I` and `extra` is exactly `I \ P`, both emitted
in sorted order; `missing` and `extra` are disjoint from each other and from `P ∩ I`.
(Determinism holds because both are Lean functions of the two sets alone.) -/
theorem drift_pure_set_operation (P I : Finset String) :
    (missing_in_qdrant P I).toFinset = P \ I ∧
    (extra_in_qdrant P I).toFinset = I \ P ∧
    (missing_in_qdrant P I).Sorted (· ≤ ·) ∧
    (extra_in_qdrant P I).Sorted (· ≤ ·) ∧
    Disjoint (P \ I) (I \ P) ∧
    Disjoint (P \ I) (P ∩ I) ∧
    Disjoint (I \ P) (P ∩ I) := by
  refine ⟨?_, ?_, ?_, ?_, ?_, ?_, ?_⟩
  · simp [missing_in_qdrant, Finset.sort_toFinset]
  · simp [extra_in_qdrant, Finset.sort_toFinset]
  · exact Finset.sort_sorted _ _
  · exact Finset.sort_sorted _ _
  · exact disjoint_sdiff_sdiff
  · rw [Finset.disjoint_left]
    intro a ha hb
    exact (Finset.mem_sdiff.mp ha).2 (Finset.mem_inter.mp hb).2
  · rw [Finset.disjoint_left]
    intro a ha hb
    exact (Finset.mem_sdiff.mp ha).2 (Finset.mem_inter.mp hb).1

/-! ## Index enumeration (reconcile_qdrant.py, qdrant_scroll_ids, lines 73-115)

Each HTTP scroll request either fails (HTTPError is re-raised as RuntimeError;
other transport errors propagate) or yields a page: a list of point ids plus a
`next_page_offset` field. Point ids and the offset are loosely typed JSON values;
`if not offset: break` tests Python truthiness, so an absent (`None`) or empty
offset terminates the loop. Only ids passing `isinstance(pid, str)` are added.
-/

/-- A loosely typed JSON scalar as the script consumes it: a point `id` or the
`next_page_offset` value. `none` models both JSON null and an absent field
(`payload.get` returns `None` for both); `other` covers any remaining JSON shape. -/
inductive PyVal where
  | str (s : String)
  | int (n : Int)
  | none
  | other
deriving DecidableEq, Repr

/-- Python truthiness of a `PyVal` (`if not offset: break`). -/
def pyTruthy : PyVal → Bool
  | .str s => !s.isEmpty
  | .int n => n != 0
  | .none => false
  | .other => true

/-- One successful scroll response: the page's point ids and its continuation token. -/
structure ScrollPage where
  points : List PyVal
  nextOffset : PyVal
deriving DecidableEq, Repr

/-- `for p in points: pid = p.get("id"); if isinstance(pid, str): ids.add(pid)` —
the ids of a page that are strings, as a set. -/
def strIds (points : List PyVal) : Finset String :=
  (points.filterMap fun p => match p with | .str s => some s | _ => Option.none).toFinset

/-- The scroll loop over the sequence of responses the index returns to the
successive requests, accumulating ids. A transport error on any page raises
(`Except.error`); a page whose offset is falsy (absent or empty) terminates with
the accumulated set. An exhausted response list models an index that never
terminates the cursor: the loop would issue another request, so no result is
produced (`Except.error`), never a partial set. -/
def scrollGo : List (Except String ScrollPage) → Finset String → Except String (Finset String)
  | [], _ => .error "no further response"
  | .error e :: _, _ => .error ("qdrant scroll failed: " ++ e)
  | .ok page :: rest, acc =>
      let acc2 := acc ∪ strIds page.points
      if pyTruthy page.nextOffset then scrollGo rest acc2 else .ok acc2

/-- `qdrant_scroll_ids`: run the scroll loop from the empty id set. -/
def qdrant_scroll_ids (responses : List (Except String ScrollPage)) : Except String (Finset String) :=
  scrollGo responses ∅

/-- **C8.** A page whose continuation token is absent (`None`) or empty terminates
the enumeration with the ids collected so far, regardless of any further responses;
and if every response before some errored response was a full page (truthy offset),
the enumeration aborts with an error — it never returns a partial identifier set
built from the pages before the error. -/
theorem scroll_termination_and_abort
    (page : ScrollPage) (rest : List (Except String ScrollPage)) (acc : Finset String)
    (pre post : List (Except String ScrollPage)) (e : String)
    (hterm : page.nextOffset = PyVal.none ∨ page.nextOffset = PyVal.str "")
    (hpre : ∀ r ∈ pre, ∃ p : ScrollPage, r = .ok p ∧ pyTruthy p.nextOffset = true) :
    scrollGo (.ok page :: rest) acc = .ok (acc ∪ strIds page.points) ∧
    ∃ msg, scrollGo (pre ++ .error e :: post) acc = .error msg := by
  constructor
  · have hfalse : pyTruthy page.nextOffset = false := by
      rcases hterm with h | h <;> rw [h] <;> decide
    simp [scrollGo, hfalse]
  · induction pre generalizing acc with
    | nil => exact ⟨"qdrant scroll failed: " ++ e, rfl⟩
    | cons r pre ih =>
        obtain ⟨p, rfl, htruthy⟩ := hpre r (by simp)
        have hrest : ∀ r' ∈ pre, ∃ p' : ScrollPage, r' = .ok p' ∧ pyTruthy p'.nextOffset = true :=
          fun r' hr' => hpre r' (by simp [hr'])
        simpa [scrollGo, htruthy] using ih (acc ∪ strIds p.points) hrest

/-- **C8 witness.** -/
theorem scroll_termination_and_abort_witness :
    scrollGo [.ok ⟨[PyVal.str "a"], PyVal.none⟩] ∅ = .ok (∅ ∪ strIds [PyVal.str "a"]) ∧
    ∃ msg, scrollGo ([.ok ⟨[PyVal.str "a"], PyVal.str "a"⟩] ++ .error "timeout" :: []) ∅ = .error msg :=
  scroll_termination_and_abort ⟨[PyVal.str "a"], PyVal.none⟩ [] ∅
    [.ok ⟨[PyVal.str "a"], PyVal.str "a"⟩] [] "timeout" (Or.inl rfl)
    (by intro r hr; simp at hr; exact ⟨⟨[PyVal.str "a"], PyVal.str "a"⟩, hr, by decide⟩)

/-- **C9.** Only string-typed point ids enter the returned identifier set:
an id `s` is collected iff some point of the page list has the string id `s`;
a point with an integer id (or a missing/null id) contributes nothing; hence a
primary id `p` absent from the collected index set — e.g. because its point
carries a non-string id — lands in `missing_in_qdrant` whenever `p` is current. -/
theorem scroll_collects_only_string_ids
    (points : List PyVal) (s : String) (n : Int)
    (P I : Finset String) (p : String) (hP : p ∈ P) (hI : p ∉ I) :
    (s ∈ strIds points ↔ PyVal.str s ∈ points) ∧
    strIds (PyVal.int n :: points) = strIds points ∧
    strIds (PyVal.none :: points) = strIds points ∧
    p ∈ missing_in_qdrant P I := by
  refine ⟨?_, ?_, ?_, ?_⟩
  · simp only [strIds, List.mem_toFinset, List.mem_filterMap]
    constructor
    · rintro ⟨q, hq, hmatch⟩
      cases q <;> simp_all
    · intro h
      exact ⟨PyVal.str s, h, rfl⟩
  · simp [strIds]
  · simp [strIds]
  · simp only [missing_in_qdrant, Finset.mem_sort, Finset.mem_sdiff]
    exact ⟨hP, hI⟩

/-- **C9 witness.** -/
theorem scroll_collects_only_string_ids_witness :
    ("a" ∈ strIds [PyVal.int 5, PyVal.str "a"] ↔ PyVal.str "a" ∈ [PyVal.int 5, PyVal.str "a"]) ∧
    strIds (PyVal.int 7 :: [PyVal.str "a"]) = strIds [PyVal.str "a"] ∧
    strIds (PyVal.none :: [PyVal.str "a"]) = strIds [PyVal.str "a"] ∧
    "b" ∈ missing_in_qdrant {"b"} {"a"} :=
  scroll_collects_only_string_ids [PyVal.int 5, PyVal.str "a"] "a" 7 {"b"} {"a"} "b"
    (by decide) (by decide)

/-! ## Repair enqueue (reconcile_qdrant.py, enqueue_repairs, lines 118-135)

`INSERT INTO search_outbox (decision_id, org_id, operation) VALUES ...
 ON CONFLICT (decision_id, operation) DO UPDATE
   SET created_at = now(), attempts = 0, locked_until = NULL;`

The table carries a unique constraint on `(decision_id, operation)` (implied by
the `ON CONFLICT` target). Inserted rows take the column defaults
`created_at = now(), attempts = 0, locked_until = NULL`; on conflict the existing
row is refreshed in place (its `org_id` is not touched). Batching into groups of
500 only splits one fold over the missing list into several, so the embedding
folds the single-row upsert over the whole list.
-/

/-- A `search_outbox` row, with `created_at` as epoch seconds. -/
structure OutboxRow where
  decision_id : String
  org_id : String
  operation : String
  created_at : Int
  attempts : Int
  locked_until : Option Int
deriving DecidableEq, Repr

/-- Does a row carry the conflict key `(decision_id, operation)`? -/
def keyMatches (d op : String) (r : OutboxRow) : Bool :=
  r.decision_id == d && r.operation == op

/-- One `INSERT ... ON CONFLICT (decision_id, operation) DO UPDATE` row:
if a row with the key exists it is refreshed (`created_at = now`, `attempts = 0`,
`locked_until = NULL`), otherwise a fresh row with the column defaults is added. -/
def upsertRow (tbl : List OutboxRow) (d o : String) (now : Int) : List OutboxRow :=
  if tbl.any (keyMatches d "upsert") then
    tbl.map fun r =>
      if keyMatches d "upsert" r then
        { r with created_at := now, attempts := 0, locked_until := Option.none }
      else r
  else tbl ++ [⟨d, o, "upsert", now, 0, Option.none⟩]

/-- `enqueue_repairs`: upsert an `'upsert'` outbox intent for every missing id,
looking its org up in the Postgres map. -/
def enqueue_repairs (tbl : List OutboxRow) (missing : List String)
    (pg_map : String → String) (now : Int) : List OutboxRow :=
  missing.foldl (fun t d => upsertRow t d (pg_map d) now) tbl

/-- At most one row per `(decision_id, operation)` pair. -/
def uniqueKeys (tbl : List OutboxRow) : Prop :=
  tbl.Pairwise fun r s => ¬(r.decision_id = s.decision_id ∧ r.operation = s.operation)

theorem upsertRow_length_of_mem (tbl : List OutboxRow) (d o : String) (now : Int)
    (h : tbl.any (keyMatches d "upsert") = true) :
    (upsertRow tbl d o now).length = tbl.length := by
  simp [upsertRow, h]

theorem upsertRow_uniqueKeys (tbl : List OutboxRow) (d o : String) (now : Int)
    (h : uniqueKeys tbl) : uniqueKeys (upsertRow tbl d o now) := by
  unfold upsertRow
  split
  · rename_i hany
    unfold uniqueKeys at h ⊢
    rw [List.pairwise_map]
    refine h.imp_of_mem ?_
    intro r s _ _ hrs
    split <;> split <;> simpa using hrs
  · rename_i hany
    unfold uniqueKeys at h ⊢
    rw [List.pairwise_append]
    refine ⟨h, List.pairwise_singleton _ _, ?_⟩
    intro r hr s hs
    simp only [List.mem_singleton] at hs
    subst hs
    rintro ⟨hd, hop⟩
    exact hany (List.any_eq_true.mpr ⟨r, hr, by simp [keyMatches, hd, hop]⟩)

theorem enqueue_repairs_uniqueKeys (tbl : List OutboxRow) (missing : List String)
    (pg_map : String → String) (now : Int) (h : uniqueKeys tbl) :
    uniqueKeys (enqueue_repairs tbl missing pg_map now) := by
  induction missing generalizing tbl with
  | nil => exact h
  | cons d rest ih => exact ih _ (upsertRow_uniqueKeys tbl d (pg_map d) now h)

/-- **C3.** Enqueueing a repair for an id that already has a live outbox entry for
`(decision_id, 'upsert')` never creates a second row: the row count is unchanged,
every row with that key ends with `created_at = now`, `attempts = 0` and
`locked_until = NULL`, and after any run of `enqueue_repairs` the table still has
at most one row per `(decision_id, operation)` pair. -/
theorem enqueue_idempotent_unique
    (tbl : List OutboxRow) (missing : List String) (pg_map : String → String)
    (d o : String) (now : Int)
    (hkey : tbl.any (keyMatches d "upsert") = true) (huniq : uniqueKeys tbl) :
    (upsertRow tbl d o now).length = tbl.length ∧
    (∀ r ∈ upsertRow tbl d o now, keyMatches d "upsert" r = true →
      r.created_at = now ∧ r.attempts = 0 ∧ r.locked_until = Option.none) ∧
    uniqueKeys (enqueue_repairs tbl missing pg_map now) := by
  refine ⟨upsertRow_length_of_mem tbl d o now hkey, ?_,
    enqueue_repairs_uniqueKeys tbl missing pg_map now huniq⟩
  intro r hr hk
  simp only [upsertRow, hkey, if_true, List.mem_map] at hr
  obtain ⟨s, _, hs⟩ := hr
  by_cases hks : keyMatches d "upsert" s = true
  · rw [if_pos hks] at hs
    subst hs
    exact ⟨rfl, rfl, rfl⟩
  · rw [if_neg hks] at hs
    subst hs
    exact absurd hk hks

/-- **C3 witness.** -/
theorem enqueue_idempotent_unique_witness :
    (upsertRow [⟨"a", "o1", "upsert", 3, 7, some 99⟩] "a" "o1" 50).length =
        ([⟨"a", "o1", "upsert", 3, 7, some 99⟩] : List OutboxRow).length ∧
    (∀ r ∈ upsertRow [⟨"a", "o1", "upsert", 3, 7, some 99⟩] "a" "o1" 50,
      keyMatches "a" "upsert" r = true →
      r.created_at = 50 ∧ r.attempts = 0 ∧ r.locked_until = Option.none) ∧
    uniqueKeys (enqueue_repairs [⟨"a", "o1", "upsert", 3, 7, some 99⟩] ["a", "b"]
        (fun _ => "o1") 50) :=
  enqueue_idempotent_unique [⟨"a", "o1", "upsert", 3, 7, some 99⟩] ["a", "b"]
    (fun _ => "o1") "a" "o1" 50 (by decide)
    (by unfold uniqueKeys; exact List.pairwise_singleton _ _)

/-! ## Standalone reconciler (reconcile_qdrant.py, main, lines 138-188)

`main` reads `DATABASE_URL` and `QDRANT_URL` and returns 2 when either is empty,
before touching Postgres or Qdrant. Then it queries the current decisions
(a `psql` failure raises), scrolls Qdrant (transport failure raises), computes
the drift, optionally enqueues repairs, and returns 1 exactly when
`missing_in_qdrant and not args.repair` or `extra_in_qdrant`, else 0. An
unhandled raise ends the process without a drift report (the interpreter exits
nonzero and the JSON summary line is never printed).
-/

/-- Inputs of one reconciler run: the environment variables, the `--repair` flag,
the Postgres query outcome (rows of `id|org_id`, or a raised psql error) and the
index's scroll responses. -/
structure ReconEnv where
  databaseUrl : String
  qdrantUrl : String
  repair : Bool
  pgRows : Except String (List (String × String))
  pages : List (Except String ScrollPage)

/-- How a reconciler run ends. `configError` is the early `return 2` taken before
any I/O; `crashed` is an unhandled exception (process exits nonzero, no report);
`exit` is a completed run with its printed missing/extra counts and return code. -/
inductive ReconOutcome where
  | configError
  | crashed (msg : String)
  | exit (code : Int) (missingCount extraCount : Nat)
deriving DecidableEq, Repr

/-- `pg_current_decisions` keys the returned map by decision id; its key set. -/
def pgIdSet (rows : List (String × String)) : Finset String :=
  (rows.map Prod.fst).toFinset

/-- The reconciler's `main`. `if not database_url` is Python string truthiness,
i.e. a test for the empty string. -/
def reconMain (env : ReconEnv) : ReconOutcome :=
  if env.databaseUrl = "" then .configError
  else if env.qdrantUrl = "" then .configError
  else
    match env.pgRows with
    | .error e => .crashed e
    | .ok rows =>
      match qdrant_scroll_ids env.pages with
      | .error e => .crashed e
      | .ok qids =>
        let pgIds := pgIdSet rows
        let missing := missing_in_qdrant pgIds qids
        let extra := extra_in_qdrant pgIds qids
        if !missing.isEmpty && !env.repair then .exit 1 missing.length extra.length
        else if !extra.isEmpty then .exit 1 missing.length extra.length
        else .exit 0 missing.length extra.length

/-- **C5.** The reconciler returns 2 when `DATABASE_URL` or `QDRANT_URL` is absent,
before any I/O (the outcome is `configError` for every value of the Postgres and
index inputs); on a completed run it returns 1 exactly when unrepaired missing ids
remain (`missing` nonempty without `--repair`) or any extra ids exist, and 0
otherwise — in particular `--repair` with no extras returns 0 even when missing
ids were enqueued this run, while extras force 1 even when the repair succeeded. -/
theorem recon_exit_codes (env : ReconEnv) (rows : List (String × String))
    (qids : Finset String)
    (hdb : env.databaseUrl ≠ "") (hq : env.qdrantUrl ≠ "")
    (hrows : env.pgRows = .ok rows) (hscroll : qdrant_scroll_ids env.pages = .ok qids) :
    (∀ env2 : ReconEnv, (env2.databaseUrl = "" ∨ env2.qdrantUrl = "") →
        reconMain env2 = .configError) ∧
    (let missing := missing_in_qdrant (pgIdSet rows) qids
     let extra := extra_in_qdrant (pgIdSet rows) qids
     (reconMain env = .exit 1 missing.length extra.length ↔
        ((missing ≠ [] ∧ env.repair = false) ∨ extra ≠ [])) ∧
     (reconMain env = .exit 0 missing.length extra.length ↔
        ¬((missing ≠ [] ∧ env.repair = false) ∨ extra ≠ [])) ∧
     (env.repair = true → extra = [] → reconMain env = .exit 0 missing.length extra.length) ∧
     (extra ≠ [] → reconMain env = .exit 1 missing.length extra.length)) := by
  constructor
  · intro env2 h2
    rcases h2 with h2 | h2
    · simp [reconMain, h2]
    · by_cases hd : env2.databaseUrl = "" <;> simp [reconMain, hd, h2]
  · intro missing extra
    have hrun : reconMain env =
        (if !missing.isEmpty && !env.repair then
          ReconOutcome.exit 1 missing.length extra.length
         else if !extra.isEmpty then ReconOutcome.exit 1 missing.length extra.length
         else ReconOutcome.exit 0 missing.length extra.length) := by
      simp [reconMain, hdb, hq, hrows, hscroll, missing, extra]
    have hcond : (!missing.isEmpty && !env.repair) = true ↔
        (missing ≠ [] ∧ env.repair = false) := by
      simp [List.isEmpty_iff]
    refine ⟨?_, ?_, ?_, ?_⟩
    · rw [hrun]
      split
      · rename_i hc
        simp only [hcond] at hc
        simp [hc]
      · rename_i hc
        split
        · rename_i he
          have he' : extra ≠ [] := by simpa [List.isEmpty_iff] using he
          simp [he']
        · rename_i he
          have hm : ¬((missing ≠ [] ∧ env.repair = false) ∨ extra ≠ []) := by
            push_neg
            constructor
            · intro hmiss
              by_contra hrep
              exact hc (hcond.mpr ⟨hmiss, by simpa using hrep⟩)
            · simpa [List.isEmpty_iff] using he
          simp [hm]
    · rw [hrun]
      split
      · rename_i hc
        simp only [hcond] at hc
        simp [hc]
      · rename_i hc
        split
        · rename_i he
          have he' : extra ≠ [] := by simpa [List.isEmpty_iff] using he
          simp [he']
        · rename_i he
          have hm : ¬((missing ≠ [] ∧ env.repair = false) ∨ extra ≠ []) := by
            push_neg
            constructor
            · intro hmiss
              by_contra hrep
              exact hc (hcond.mpr ⟨hmiss, by simpa using hrep⟩)
            · simpa [List.isEmpty_iff] using he
          simp [hm]
    · intro hrep hext
      rw [hrun]
      simp [hrep, hext]
    · intro hext
      rw [hrun]
      have he' : extra.isEmpty = false := by simpa [List.isEmpty_iff] using hext
      split
      · rfl
      · simp [he']

/-- The spec's scenario: primary `{a,b,c}` all current, index `{b,c,d}`, `--repair`
set: `missing = [a]`, `extra = [d]`. -/
def reconScenarioEnv : ReconEnv where
  databaseUrl := "postgres://db"
  qdrantUrl := "http://q:6333"
  repair := true
  pgRows := .ok [("a", "o1"), ("b", "o1"), ("c", "o1")]
  pages := [.ok ⟨[.str "b", .str "c", .str "d"], .none⟩]

/-- **C5 witness.** -/
theorem recon_exit_codes_witness :
    (∀ env2 : ReconEnv, (env2.databaseUrl = "" ∨ env2.qdrantUrl = "") →
        reconMain env2 = .configError) ∧
    (let missing := missing_in_qdrant
        (pgIdSet [("a", "o1"), ("b", "o1"), ("c", "o1")]) {"b", "c", "d"}
     let extra := extra_in_qdrant
        (pgIdSet [("a", "o1"), ("b", "o1"), ("c", "o1")]) {"b", "c", "d"}
     (reconMain reconScenarioEnv = .exit 1 missing.length extra.length ↔
        ((missing ≠ [] ∧ reconScenarioEnv.repair = false) ∨ extra ≠ [])) ∧
     (reconMain reconScenarioEnv = .exit 0 missing.length extra.length ↔
        ¬((missing ≠ [] ∧ reconScenarioEnv.repair = false) ∨ extra ≠ [])) ∧
     (reconScenarioEnv.repair = true → extra = [] →
        reconMain reconScenarioEnv = .exit 0 missing.length extra.length) ∧
     (extra ≠ [] → reconMain reconScenarioEnv = .exit 1 missing.length extra.length)) :=
  recon_exit_codes reconScenarioEnv [("a", "o1"), ("b", "o1"), ("c", "o1")]
    {"b", "c", "d"} (by decide) (by decide) rfl rfl

/-! ## Durability gate (verify_exit_criteria.py)

Settings are read from the environment through `as_int` / `as_bool`
(lines 70-83, 94-97). The five checks (lines 102-212) run inside one
`try`: any exception — a `psql` failure (`run_psql` raises `RuntimeError`) or an
`int()` conversion failing on malformed data — aborts the run with exit code 2
(lines 214-216). The reconcile subprocess (lines 186-203) is run with
`check=False`: its own failure surfaces only as a nonzero `returncode` and a
missing JSON payload, which make the `qdrant_reconciliation` check fail, not
raise. Aggregation and exit code are lines 218-226.
-/

/-- ASCII whitespace, as stripped by Python's `int()` and `str.strip()`. -/
def isPySpace (c : Char) : Bool :=
  c = ' ' || c = '\t' || c = '\n' || c = '\r' || c = '\x0b' || c = '\x0c'

/-- Strip leading and trailing whitespace. -/
def pyStrip (cs : List Char) : List Char :=
  ((cs.dropWhile isPySpace).reverse.dropWhile isPySpace).reverse

/-- The digit part accepted by Python's `int()` after an underscore or a digit:
underscores must sit between digits. -/
def pyDigitsTail : List Char → Bool
  | [] => true
  | '_' :: c :: rest => (c.isDigit && pyDigitsTail rest : Bool)
  | ['_'] => false
  | c :: rest => (c.isDigit && pyDigitsTail rest : Bool)

/-- `digit+ ('_' digit+)*`: the digit grammar of Python's decimal `int()`. -/
def pyDigitsOk : List Char → Bool
  | [] => false
  | c :: rest => (c.isDigit && pyDigitsTail rest : Bool)

/-- Python `int(value)` on a string: surrounding whitespace stripped, optional
sign, then decimal digits, with single underscores allowed between digit groups.
`Option.none` models a raised `ValueError`. -/
def pyParseInt (value : String) : Option Int :=
  let cs := pyStrip value.toList
  let signDigits : Int × List Char :=
    match cs with
    | '-' :: rest => (-1, rest)
    | '+' :: rest => (1, rest)
    | _ => (1, cs)
  if pyDigitsOk signDigits.2 then
    some (signDigits.1 * (signDigits.2.filter fun c => !(c = '_')).foldl
      (fun acc c => acc * 10 + ((c.toNat : Int) - ('0'.toNat : Int))) 0)
  else Option.none

/-- `as_int` (lines 70-74): `int(value)`, falling back to the default on any error. -/
def as_int (value : String) (default : Int) : Int :=
  (pyParseInt value).getD default

/-- The strings `as_bool` (lines 77-83) treats as true. -/
def boolTrueStrings : List String := ["1", "true", "yes", "y", "on"]

/-- The strings `as_bool` treats as false. -/
def boolFalseStrings : List String := ["0", "false", "no", "n", "off"]

/-- `value.strip().lower()` over the characters (the recognized tokens are all
ASCII, so ASCII lowercasing decides membership in the two sets). -/
def pyStripLower (value : String) : List Char :=
  (pyStrip value.toList).map Char.toLower

/-- `as_bool`: strip and lowercase, then match against the two fixed string sets,
falling back to the default otherwise. -/
def as_bool (value : String) (default : Bool) : Bool :=
  let v := pyStripLower value
  if (boolTrueStrings.map String.toList).contains v then true
  else if (boolFalseStrings.map String.toList).contains v then false
  else default

/-- One entry of the report's `checks` array (the `details` dict carries no
behavior and is omitted). Every check dict the script builds sets `passed`;
`skipped` is present (and true) only on the two skip branches. -/
structure CheckResult where
  name : String
  passed : Bool
  skipped : Bool
deriving DecidableEq, Repr

/-- A check record without the `skipped` key (`c.get("skipped")` would be `None`). -/
def mkCheck (name : String) (passed : Bool) : CheckResult :=
  ⟨name, passed, false⟩

/-- A skipped check: `"passed": True, "skipped": True`. -/
def mkSkipped (name : String) : CheckResult :=
  ⟨name, true, true⟩

/-- `all_passed = all(bool(c.get("passed")) for c in checks)` (line 218). -/
def allPassed (checks : List CheckResult) : Bool :=
  checks.all (·.passed)

/-- `SELECT count(*) FROM search_outbox WHERE attempts >= 10` (line 128):
the dead-letter count, with the ceiling 10 fixed in the SQL. -/
def deadLetterCount (tbl : List OutboxRow) : Int :=
  ((tbl.filter fun r => 10 ≤ r.attempts).length : Int)

/-- `SELECT COALESCE(EXTRACT(EPOCH FROM (now() - min(created_at)))::bigint, 0)
FROM search_outbox WHERE attempts < 10` (lines 139-146): age in seconds of the
oldest live (attempts < 10) pending entry, 0 when none exists. -/
def oldestPendingSeconds (now : Int) (tbl : List OutboxRow) : Int :=
  match (tbl.filter fun r => r.attempts < 10).map (·.created_at) with
  | [] => 0
  | c :: cs => now - cs.foldl min c

/-- The `dead_letter_threshold` check dict (lines 131-137). -/
def dead_letter_check (deadLetters maxDeadLetters : Int) : CheckResult :=
  mkCheck "dead_letter_threshold" (deadLetters ≤ maxDeadLetters)

/-- The `outbox_oldest_age` check dict (lines 148-157). -/
def outbox_oldest_check (oldestSeconds maxSeconds : Int) : CheckResult :=
  mkCheck "outbox_oldest_age" (oldestSeconds ≤ maxSeconds)

/-- The parsed JSON line found in the reconcile subprocess's stdout, if any
(`run_reconcile_script`, lines 53-61; an empty dict is falsy and equivalent to
none here). `int(payload.get(...))` may raise on a malformed field, so each
field conversion is an `Except`. -/
structure ReconPayload where
  missingField : Except String Int
  extraField : Except String Int

/-- What the gate sees of the reconcile subprocess: its return code and payload.
`subprocess.run(..., check=False)` never raises, so a crashed subprocess shows up
only as a nonzero `returncode` with no payload. -/
structure ReconRun where
  returncode : Int
  payload : Option ReconPayload

/-- From a modelled reconciler outcome to what the gate's subprocess call sees:
a completed run prints its report and returns its code; a crash makes the
interpreter exit 1 with no JSON line on stdout; the early config exit returns 2,
also without a report. -/
def reconProcResult : ReconOutcome → ReconRun
  | .configError => ⟨2, Option.none⟩
  | .crashed _ => ⟨1, Option.none⟩
  | .exit code m x => ⟨code, some ⟨.ok (m : Int), .ok (x : Int)⟩⟩

/-- Lines 189-191: convert the payload counts (raising on malformed data) and
compute `passed = returncode == 0 and missing == 0 and extra == 0`; with no
payload both counts are `None` and the comparison with 0 is false. -/
def reconCheckValues (r : ReconRun) : Except String (Option Int × Option Int) :=
  match r.payload with
  | Option.none => .ok (Option.none, Option.none)
  | some p =>
    match p.missingField with
    | .error e => .error e
    | .ok m =>
      match p.extraField with
      | .error e => .error e
      | .ok x => .ok (some m, some x)

/-- Inputs of one gate run: environment variables (`Option.none` = unset, so
`os.environ.get` falls back to its default string) and the outcome of each
external call. Each `psql`-backed value is an `Except`: `error` covers both a
`psql` failure and an `int()` failing on its output, either of which raises. -/
structure GateEnv where
  databaseUrl : String
  qdrantUrl : String
  envMaxDeadLetters : Option String
  envMaxOutboxOldest : Option String
  envRetainDays : Option String
  envStrictRetention : Option String
  orphanRes : Except String (Int × Int × Int)
  deadLetterRes : Except String Int
  oldestRes : Except String Int
  oldEventsRes : Except String Int
  recon : ReconRun

/-- `RETAIN_DAYS` parsing (line 96); it only shapes the retention SQL text. -/
def gateRetainDays (env : GateEnv) : Int :=
  as_int (env.envRetainDays.getD "90") 90

/-- The `strict_retention_window` branch (lines 159-184): when strict mode is on
the check runs against the `agent_events` query (whose failure raises); when off
it is skipped and marked passed. -/
def retentionCheckE : Bool → Except String Int → Except String CheckResult
  | true, .error e => .error e
  | true, .ok oldEvents => .ok (mkCheck "strict_retention_window" (oldEvents = 0))
  | false, _ => .ok (mkSkipped "strict_retention_window")

/-- The `qdrant_reconciliation` branch (lines 186-212): skipped when no
`QDRANT_URL` is set, otherwise built from the subprocess outcome (only the
payload conversions can raise here). -/
def reconCheckE (qdrantUrl : String) (recon : ReconRun) : Except String CheckResult :=
  if qdrantUrl = "" then .ok (mkSkipped "qdrant_reconciliation")
  else
    match reconCheckValues recon with
    | .error e => .error e
    | .ok (m, x) =>
      .ok (mkCheck "qdrant_reconciliation" (recon.returncode = 0 && m = some 0 && x = some 0))

/-- The body of the `try` block (lines 102-212): build the five check dicts in
order, or raise. `o` is the orphan-count triple (decisions without run,
alternatives without decision, evidence without decision). -/
def gateChecksE (env : GateEnv) : Except String (List CheckResult) :=
  match env.orphanRes with
  | .error e => .error e
  | .ok o =>
    match env.deadLetterRes with
    | .error e => .error e
    | .ok deadLetters =>
      match env.oldestRes with
      | .error e => .error e
      | .ok oldestSeconds =>
        match retentionCheckE (as_bool (env.envStrictRetention.getD "false") false)
            env.oldEventsRes with
        | .error e => .error e
        | .ok c4 =>
          match reconCheckE env.qdrantUrl env.recon with
          | .error e => .error e
          | .ok c5 =>
            .ok [mkCheck "orphan_integrity" (o.1 + o.2.1 + o.2.2 = 0),
                 dead_letter_check deadLetters (as_int (env.envMaxDeadLetters.getD "0") 0),
                 outbox_oldest_check oldestSeconds
                   (as_int (env.envMaxOutboxOldest.getD "1800") 1800),
                 c4, c5]

/-- How a gate run ends: the early `return 2` for a missing `DATABASE_URL`
(lines 90-92), the `except` branch returning 2 (lines 214-216), or a completed
run with its `checks` array. -/
inductive GateOutcome where
  | configError
  | runtimeError (msg : String)
  | completed (checks : List CheckResult)
deriving DecidableEq, Repr

/-- The gate's `main` up to its report: outcome of one run. -/
def gateRun (env : GateEnv) : GateOutcome :=
  if env.databaseUrl = "" then .configError
  else
    match gateChecksE env with
    | .error e => .runtimeError e
    | .ok checks => .completed checks

/-- The gate's process exit code (lines 92, 216, 226). -/
def gateExit (env : GateEnv) : Int :=
  match gateRun env with
  | .configError => 2
  | .runtimeError _ => 2
  | .completed checks => if allPassed checks then 0 else 1

theorem retentionCheckE_ok (strict : Bool) (oldE : Except String Int) (c : CheckResult)
    (h : retentionCheckE strict oldE = .ok c) :
    (c.skipped = true → c.passed = true) ∧
    (strict = false → c = mkSkipped "strict_retention_window") := by
  cases strict with
  | false =>
      simp only [retentionCheckE, Except.ok.injEq] at h
      subst h
      exact ⟨fun _ => rfl, fun _ => rfl⟩
  | true =>
      cases oldE with
      | error e => cases h
      | ok n =>
          simp only [retentionCheckE, Except.ok.injEq] at h
          subst h
          exact ⟨fun hsk => (nomatch hsk), fun hc => (nomatch hc)⟩

theorem reconCheckE_ok (qdrantUrl : String) (recon : ReconRun) (c : CheckResult)
    (h : reconCheckE qdrantUrl recon = .ok c) :
    (c.skipped = true → c.passed = true) ∧
    (qdrantUrl = "" → c = mkSkipped "qdrant_reconciliation") := by
  by_cases hq : qdrantUrl = ""
  · simp only [reconCheckE, if_pos hq, Except.ok.injEq] at h
    subst h
    exact ⟨fun _ => rfl, fun _ => rfl⟩
  · simp only [reconCheckE, if_neg hq] at h
    cases hm : reconCheckValues recon with
    | error e => rw [hm] at h; cases h
    | ok mx =>
        rw [hm] at h
        obtain ⟨m, x⟩ := mx
        simp only [Except.ok.injEq] at h
        subst h
        exact ⟨fun hsk => (nomatch hsk), fun hc => absurd hc hq⟩

theorem gateChecksE_ok_shape (env : GateEnv) (checks : List CheckResult)
    (h : gateChecksE env = .ok checks) :
    ∃ o dl old c4 c5,
      env.orphanRes = .ok o ∧ env.deadLetterRes = .ok dl ∧ env.oldestRes = .ok old ∧
      retentionCheckE (as_bool (env.envStrictRetention.getD "false") false)
        env.oldEventsRes = .ok c4 ∧
      reconCheckE env.qdrantUrl env.recon = .ok c5 ∧
      checks = [mkCheck "orphan_integrity" (o.1 + o.2.1 + o.2.2 = 0),
                dead_letter_check dl (as_int (env.envMaxDeadLetters.getD "0") 0),
                outbox_oldest_check old (as_int (env.envMaxOutboxOldest.getD "1800") 1800),
                c4, c5] := by
  unfold gateChecksE at h
  cases ho : env.orphanRes with
  | error e => rw [ho] at h; cases h
  | ok o =>
  rw [ho] at h
  cases hdl : env.deadLetterRes with
  | error e => rw [hdl] at h; cases h
  | ok dl =>
  rw [hdl] at h
  cases hold : env.oldestRes with
  | error e => rw [hold] at h; cases h
  | ok old =>
  rw [hold] at h
  cases hret : retentionCheckE (as_bool (env.envStrictRetention.getD "false") false)
      env.oldEventsRes with
  | error e => rw [hret] at h; cases h
  | ok c4 =>
  rw [hret] at h
  cases hrec : reconCheckE env.qdrantUrl env.recon with
  | error e => rw [hrec] at h; cases h
  | ok c5 =>
  rw [hrec] at h
  simp only [Except.ok.injEq] at h
  exact ⟨o, dl, old, c4, c5, rfl, rfl, rfl, rfl, rfl, h.symm⟩

theorem gateRun_completed (env : GateEnv) (checks : List CheckResult)
    (h : gateRun env = .completed checks) :
    env.databaseUrl ≠ "" ∧ gateChecksE env = .ok checks := by
  unfold gateRun at h
  by_cases hdb : env.databaseUrl = ""
  · rw [if_pos hdb] at h; cases h
  · rw [if_neg hdb] at h
    cases hc : gateChecksE env with
    | error e => rw [hc] at h; cases h
    | ok cs => rw [hc] at h; cases h; exact ⟨hdb, rfl⟩

theorem gate_skipped_implies_passed (env : GateEnv) (checks : List CheckResult)
    (h : gateRun env = .completed checks) :
    ∀ c ∈ checks, c.skipped = true → c.passed = true := by
  obtain ⟨-, hok⟩ := gateRun_completed env checks h
  obtain ⟨o, dl, old, c4, c5, -, -, -, hret, hrec, rfl⟩ := gateChecksE_ok_shape env checks hok
  intro c hc hsk
  simp only [List.mem_cons, List.mem_singleton] at hc
  rcases hc with rfl | rfl | rfl | rfl | rfl | h
  · cases hsk
  · cases hsk
  · cases hsk
  · exact (retentionCheckE_ok _ _ _ hret).1 hsk
  · exact (reconCheckE_ok _ _ _ hrec).1 hsk
  · cases h

/-- **C2.** On any completed gate run, `all_passed` is true iff every non-skipped
check's `passed` is true; every skipped check is recorded with `passed = true`;
flipping any one non-skipped check to failing flips `all_passed` to false
regardless of the others; and the two skip conditions — strict retention mode
off, and no index endpoint configured — produce exactly the
`skipped: true, passed: true` records. -/
theorem gate_aggregation (env : GateEnv) (checks : List CheckResult)
    (h : gateRun env = .completed checks) :
    (allPassed checks = true ↔ ∀ c ∈ checks, c.skipped = false → c.passed = true) ∧
    (∀ c ∈ checks, c.skipped = true → c.passed = true) ∧
    (∀ pre c post, checks = pre ++ c :: post → c.skipped = false →
      allPassed (pre ++ { c with passed := false } :: post) = false) ∧
    (as_bool (env.envStrictRetention.getD "false") false = false →
      mkSkipped "strict_retention_window" ∈ checks) ∧
    (env.qdrantUrl = "" → mkSkipped "qdrant_reconciliation" ∈ checks) := by
  have hskip := gate_skipped_implies_passed env checks h
  obtain ⟨-, hok⟩ := gateRun_completed env checks h
  obtain ⟨o, dl, old, c4, c5, -, -, -, hret, hrec, hshape⟩ := gateChecksE_ok_shape env checks hok
  refine ⟨?_, hskip, ?_, ?_, ?_⟩
  · unfold allPassed
    rw [List.all_eq_true]
    constructor
    · intro hall c hc _
      exact hall c hc
    · intro hns c hc
      cases hsk : c.skipped with
      | false => exact hns c hc hsk
      | true => exact hskip c hc hsk
  · intro pre c post hpre _
    subst hpre
    simp [allPassed]
  · intro hstrict
    rw [hshape, ← (retentionCheckE_ok _ _ _ hret).2 hstrict]
    simp
  · intro hq
    rw [hshape, ← (reconCheckE_ok _ _ _ hrec).2 hq]
    simp

/-- A gate run with every check green, strict retention off and no index endpoint. -/
def gateAllGreenEnv : GateEnv where
  databaseUrl := "postgres://db"
  qdrantUrl := ""
  envMaxDeadLetters := Option.none
  envMaxOutboxOldest := Option.none
  envRetainDays := Option.none
  envStrictRetention := Option.none
  orphanRes := .ok (0, 0, 0)
  deadLetterRes := .ok 0
  oldestRes := .ok 0
  oldEventsRes := .ok 0
  recon := ⟨0, Option.none⟩

/-- The checks `gateAllGreenEnv` produces. -/
def gateAllGreenChecks : List CheckResult :=
  [mkCheck "orphan_integrity" true, dead_letter_check 0 0, outbox_oldest_check 0 1800,
   mkSkipped "strict_retention_window", mkSkipped "qdrant_reconciliation"]

/-- **C2 witness.** -/
theorem gate_aggregation_witness :
    (allPassed gateAllGreenChecks = true ↔
      ∀ c ∈ gateAllGreenChecks, c.skipped = false → c.passed = true) ∧
    (∀ c ∈ gateAllGreenChecks, c.skipped = true → c.passed = true) ∧
    (∀ pre c post, gateAllGreenChecks = pre ++ c :: post → c.skipped = false →
      allPassed (pre ++ { c with passed := false } :: post) = false) ∧
    (as_bool ((gateAllGreenEnv.envStrictRetention).getD "false") false = false →
      mkSkipped "strict_retention_window" ∈ gateAllGreenChecks) ∧
    (gateAllGreenEnv.qdrantUrl = "" → mkSkipped "qdrant_reconciliation" ∈ gateAllGreenChecks) :=
  gate_aggregation gateAllGreenEnv gateAllGreenChecks (by decide)

/-- **C7.** The dead-letter check passes iff the count of outbox entries at or
above the attempts ceiling (10) is at most the configured maximum (default 0:
`as_int` of the fallback string `"0"`): a count exactly equal to the maximum
passes, a count of maximum + 1 fails. -/
theorem dead_letter_threshold_boundary (tbl : List OutboxRow) (m : Int) :
    ((dead_letter_check (deadLetterCount tbl) m).passed = true ↔ deadLetterCount tbl ≤ m) ∧
    (deadLetterCount tbl = m → (dead_letter_check (deadLetterCount tbl) m).passed = true) ∧
    (deadLetterCount tbl = m + 1 → (dead_letter_check (deadLetterCount tbl) m).passed = false) ∧
    as_int ((Option.none : Option String).getD "0") 0 = 0 := by
  refine ⟨?_, ?_, ?_, by decide⟩
  · simp [dead_letter_check, mkCheck]
  · intro hm
    simp [dead_letter_check, mkCheck, hm]
  · intro hm
    simp only [dead_letter_check, mkCheck, hm, decide_eq_false_iff_not]
    omega

/-- **C7 witness.** -/
theorem dead_letter_threshold_boundary_witness :
    ((dead_letter_check (deadLetterCount [⟨"a", "o", "upsert", 0, 10, Option.none⟩]) 0).passed
        = true ↔ deadLetterCount [⟨"a", "o", "upsert", 0, 10, Option.none⟩] ≤ 0) ∧
    (deadLetterCount [⟨"a", "o", "upsert", 0, 10, Option.none⟩] = 0 →
      (dead_letter_check (deadLetterCount [⟨"a", "o", "upsert", 0, 10, Option.none⟩]) 0).passed
        = true) ∧
    (deadLetterCount [⟨"a", "o", "upsert", 0, 10, Option.none⟩] = 0 + 1 →
      (dead_letter_check (deadLetterCount [⟨"a", "o", "upsert", 0, 10, Option.none⟩]) 0).passed
        = false) ∧
    as_int ((Option.none : Option String).getD "0") 0 = 0 :=
  dead_letter_threshold_boundary [⟨"a", "o", "upsert", 0, 10, Option.none⟩] 0

/-- **C6.** The outbox staleness check measures the age in seconds of the oldest
live pending entry, counting only entries with `attempts` below the dead-letter
ceiling 10 (a dead-letter row changes nothing); with no pending entry the age is
0 and the check passes whenever the configured maximum is nonnegative (the
default, `as_int` of the fallback `"1800"`, is 1800); and the check passes iff
the age is at most the configured maximum. -/
theorem outbox_staleness_check (tbl : List OutboxRow) (now maxS : Int) (r : OutboxRow)
    (hdead : 10 ≤ r.attempts) :
    ((outbox_oldest_check (oldestPendingSeconds now tbl) maxS).passed = true ↔
      oldestPendingSeconds now tbl ≤ maxS) ∧
    (tbl.filter (fun s => s.attempts < 10) = [] → oldestPendingSeconds now tbl = 0) ∧
    (tbl.filter (fun s => s.attempts < 10) = [] → 0 ≤ maxS →
      (outbox_oldest_check (oldestPendingSeconds now tbl) maxS).passed = true) ∧
    oldestPendingSeconds now (r :: tbl) = oldestPendingSeconds now tbl ∧
    as_int ((Option.none : Option String).getD "1800") 1800 = 1800 := by
  have hzero : tbl.filter (fun s => s.attempts < 10) = [] →
      oldestPendingSeconds now tbl = 0 := by
    intro hempty
    simp [oldestPendingSeconds, hempty]
  refine ⟨by simp [outbox_oldest_check, mkCheck], hzero, ?_, ?_, by decide⟩
  · intro hempty hmax
    have := hzero hempty
    simp [outbox_oldest_check, mkCheck, this, hmax]
  · have hfilter : (r :: tbl).filter (fun s => s.attempts < 10) =
        tbl.filter (fun s => s.attempts < 10) := by
      rw [List.filter_cons]
      simp only [decide_eq_true_eq]
      rw [if_neg (by omega)]
    simp [oldestPendingSeconds, hfilter]

/-- **C6 witness.** -/
theorem outbox_staleness_check_witness :
    ((outbox_oldest_check (oldestPendingSeconds 2000 ([] : List OutboxRow)) 1800).passed = true ↔
      oldestPendingSeconds 2000 ([] : List OutboxRow) ≤ 1800) ∧
    (([] : List OutboxRow).filter (fun s => s.attempts < 10) = [] →
      oldestPendingSeconds 2000 ([] : List OutboxRow) = 0) ∧
    (([] : List OutboxRow).filter (fun s => s.attempts < 10) = [] → (0 : Int) ≤ 1800 →
      (outbox_oldest_check (oldestPendingSeconds 2000 ([] : List OutboxRow)) 1800).passed
        = true) ∧
    oldestPendingSeconds 2000 (⟨"a", "o", "upsert", 5, 12, Option.none⟩ :: []) =
      oldestPendingSeconds 2000 ([] : List OutboxRow) ∧
    as_int ((Option.none : Option String).getD "1800") 1800 = 1800 :=
  outbox_staleness_check [] 2000 1800 ⟨"a", "o", "upsert", 5, 12, Option.none⟩ (by decide)

theorem gateExit_completed (env : GateEnv) (checks : List CheckResult)
    (h : gateRun env = .completed checks) :
    gateExit env = if allPassed checks then 0 else 1 := by
  unfold gateExit
  rw [h]

/-- **C10.** Every optional gate setting falls back silently: `as_int` returns the
default whenever `int()` would raise, `as_bool` returns the default whenever the
stripped lowercased value is in neither recognized set (so the retention-days
setting falls back to 90 likewise), and the gate's exit code is 2 exactly for
the absent `DATABASE_URL` — with the connection string set and every external
call succeeding, the exit code is never 2, whatever the four setting strings
hold. -/
theorem optional_settings_silent_fallback (env : GateEnv)
    (o : Int × Int × Int) (dl old oe : Int) (mx : Option Int × Option Int)
    (hdb : env.databaseUrl ≠ "")
    (ho : env.orphanRes = .ok o) (hdl : env.deadLetterRes = .ok dl)
    (hold : env.oldestRes = .ok old) (hoe : env.oldEventsRes = .ok oe)
    (hmx : reconCheckValues env.recon = .ok mx) :
    (∀ v d, pyParseInt v = Option.none → as_int v d = d) ∧
    (∀ v b, (boolTrueStrings.map String.toList).contains (pyStripLower v) = false →
      (boolFalseStrings.map String.toList).contains (pyStripLower v) = false →
      as_bool v b = b) ∧
    pyParseInt "ten" = Option.none ∧
    (pyParseInt (env.envRetainDays.getD "90") = Option.none → gateRetainDays env = 90) ∧
    gateExit env ≠ 2 ∧
    (∀ env2 : GateEnv, env2.databaseUrl = "" → gateExit env2 = 2) := by
  refine ⟨?_, ?_, by decide, ?_, ?_, ?_⟩
  · intro v d hv
    simp [as_int, hv]
  · intro v b ht hf
    unfold as_bool
    simp only [ht, hf]
    simp
  · intro hv
    cases henv : env.envRetainDays with
    | none => unfold gateRetainDays; rw [henv]; decide
    | some s =>
        rw [henv] at hv
        simp only [Option.getD] at hv ⊢
        simp [gateRetainDays, henv, as_int, hv]
  · have hret : ∃ c4, retentionCheckE (as_bool (env.envStrictRetention.getD "false") false)
        env.oldEventsRes = .ok c4 := by
      cases as_bool (env.envStrictRetention.getD "false") false with
      | false => exact ⟨mkSkipped "strict_retention_window", rfl⟩
      | true => exact ⟨mkCheck "strict_retention_window" (oe = 0), by rw [hoe]; rfl⟩
    have hrec : ∃ c5, reconCheckE env.qdrantUrl env.recon = .ok c5 := by
      by_cases hq : env.qdrantUrl = ""
      · exact ⟨mkSkipped "qdrant_reconciliation", by simp [reconCheckE, hq]⟩
      · refine ⟨mkCheck "qdrant_reconciliation"
          (env.recon.returncode = 0 && mx.1 = some 0 && mx.2 = some 0), ?_⟩
        simp only [reconCheckE, if_neg hq, hmx]
    obtain ⟨c4, hc4⟩ := hret
    obtain ⟨c5, hc5⟩ := hrec
    have hchecks : gateChecksE env =
        .ok [mkCheck "orphan_integrity" (o.1 + o.2.1 + o.2.2 = 0),
             dead_letter_check dl (as_int (env.envMaxDeadLetters.getD "0") 0),
             outbox_oldest_check old (as_int (env.envMaxOutboxOldest.getD "1800") 1800),
             c4, c5] := by
      unfold gateChecksE
      rw [ho, hdl, hold, hc4, hc5]
    have hrun : gateRun env = .completed
        [mkCheck "orphan_integrity" (o.1 + o.2.1 + o.2.2 = 0),
         dead_letter_check dl (as_int (env.envMaxDeadLetters.getD "0") 0),
         outbox_oldest_check old (as_int (env.envMaxOutboxOldest.getD "1800") 1800),
         c4, c5] := by
      unfold gateRun
      rw [if_neg hdb, hchecks]
    rw [gateExit_completed _ _ hrun]
    split <;> decide
  · intro env2 hdb2
    simp [gateExit, gateRun, hdb2]

/-- A gate run whose four optional settings are all malformed. -/
def gateMalformedEnv : GateEnv where
  databaseUrl := "postgres://db"
  qdrantUrl := "http://q:6333"
  envMaxDeadLetters := some "many"
  envMaxOutboxOldest := some "soon"
  envRetainDays := some "ninety"
  envStrictRetention := some "maybe"
  orphanRes := .ok (0, 0, 0)
  deadLetterRes := .ok 0
  oldestRes := .ok 0
  oldEventsRes := .ok 0
  recon := ⟨0, Option.none⟩

/-- **C10 witness.** -/
theorem optional_settings_silent_fallback_witness :
    (∀ v d, pyParseInt v = Option.none → as_int v d = d) ∧
    (∀ v b, (boolTrueStrings.map String.toList).contains (pyStripLower v) = false →
      (boolFalseStrings.map String.toList).contains (pyStripLower v) = false →
      as_bool v b = b) ∧
    pyParseInt "ten" = Option.none ∧
    (pyParseInt ((gateMalformedEnv.envRetainDays).getD "90") = Option.none →
      gateRetainDays gateMalformedEnv = 90) ∧
    gateExit gateMalformedEnv ≠ 2 ∧
    (∀ env2 : GateEnv, env2.databaseUrl = "" → gateExit env2 = 2) :=
  optional_settings_silent_fallback gateMalformedEnv (0, 0, 0) 0 0 0
    (Option.none, Option.none) (by decide) rfl rfl rfl rfl rfl

/-! ## C4: gate exit codes and the drift check's failure mode

The claim says an unexpected error while performing *any* check — including the
drift reconciliation check — aborts the run with exit code 2. For the three
`psql`-backed checks that is what the `try/except` does. But the drift check
runs the reconciler as a subprocess with `check=False`: a transport failure
inside the subprocess surfaces as a nonzero `returncode` with no JSON payload,
which the gate records as a *failed* `qdrant_reconciliation` check — the run
completes and exits 1, never 2.
-/

/-- A reconciler run whose first scroll page fails with a transport error. -/
def reconCrashEnv : ReconEnv where
  databaseUrl := "postgres://db"
  qdrantUrl := "http://q:6333"
  repair := false
  pgRows := .ok []
  pages := [.error "connection timed out"]

/-- A gate run over a healthy database whose drift subprocess is
`reconCrashEnv`'s crashed run. -/
def gateDriftCrashEnv : GateEnv where
  databaseUrl := "postgres://db"
  qdrantUrl := "http://q:6333"
  envMaxDeadLetters := Option.none
  envMaxOutboxOldest := Option.none
  envRetainDays := Option.none
  envStrictRetention := Option.none
  orphanRes := .ok (0, 0, 0)
  deadLetterRes := .ok 0
  oldestRes := .ok 0
  oldEventsRes := .ok 0
  recon := reconProcResult (reconMain reconCrashEnv)

/-- **C4 counterexample.** With every other check green, a transport failure while
performing the drift reconciliation check makes the reconciler subprocess crash,
and the gate exits 1 — not the 2 the claim requires for an unexpected error in
any check of the battery. -/
theorem gate_drift_transport_error_cex :
    reconMain reconCrashEnv = .crashed "qdrant scroll failed: connection timed out" ∧
    gateExit gateDriftCrashEnv = 1 ∧
    ¬gateExit gateDriftCrashEnv = 2 := by
  refine ⟨rfl, ?_, ?_⟩ <;> decide

/-- **C4 (amended).** The gate's exit code is 2 when `DATABASE_URL` is missing, or
when an unexpected error occurs in the gate's own process while performing a
`psql`-backed check (the orphan query raising is shown as representative); a
completed run exits 0 when all checks passed and 1 otherwise. But an unexpected
error inside the drift reconciliation subprocess (transport failure: nonzero
return code, no payload) is recorded as a failed `qdrant_reconciliation` check on
a run that completes and exits 1 — it does not abort the run with 2. -/
theorem gate_exit_codes (env : GateEnv)
    (o : Int × Int × Int) (dl old oe : Int) (e : String)
    (hdb : env.databaseUrl ≠ "") (hq : env.qdrantUrl ≠ "")
    (ho : env.orphanRes = .ok o) (hdl : env.deadLetterRes = .ok dl)
    (hold : env.oldestRes = .ok old) (hoe : env.oldEventsRes = .ok oe)
    (hpayload : env.recon.payload = Option.none) :
    (∀ env2 : GateEnv, env2.databaseUrl = "" → gateExit env2 = 2) ∧
    (∀ env2 : GateEnv, env2.databaseUrl ≠ "" → env2.orphanRes = .error e →
      gateExit env2 = 2) ∧
    (∀ env2 checks2, gateRun env2 = .completed checks2 →
      gateExit env2 = if allPassed checks2 then 0 else 1) ∧
    (∃ cs, gateRun env = .completed cs ∧
      mkCheck "qdrant_reconciliation" false ∈ cs ∧ gateExit env = 1) := by
  refine ⟨?_, ?_, fun env2 checks2 h => gateExit_completed env2 checks2 h, ?_⟩
  · intro env2 hdb2
    simp [gateExit, gateRun, hdb2]
  · intro env2 hdb2 ho2
    have hchk : gateChecksE env2 = .error e := by
      unfold gateChecksE
      rw [ho2]
    unfold gateExit gateRun
    rw [if_neg hdb2, hchk]
  · have hmx : reconCheckValues env.recon = .ok (Option.none, Option.none) := by
      unfold reconCheckValues
      rw [hpayload]
    have hc5 : reconCheckE env.qdrantUrl env.recon =
        .ok (mkCheck "qdrant_reconciliation" false) := by
      unfold reconCheckE
      rw [if_neg hq, hmx]
      simp [mkCheck]
    have hret : ∃ c4, retentionCheckE (as_bool (env.envStrictRetention.getD "false") false)
        env.oldEventsRes = .ok c4 := by
      cases as_bool (env.envStrictRetention.getD "false") false with
      | false => exact ⟨mkSkipped "strict_retention_window", rfl⟩
      | true => exact ⟨mkCheck "strict_retention_window" (oe = 0), by rw [hoe]; rfl⟩
    obtain ⟨c4, hc4⟩ := hret
    have hchecks : gateChecksE env =
        .ok [mkCheck "orphan_integrity" (o.1 + o.2.1 + o.2.2 = 0),
             dead_letter_check dl (as_int (env.envMaxDeadLetters.getD "0") 0),
             outbox_oldest_check old (as_int (env.envMaxOutboxOldest.getD "1800") 1800),
             c4, mkCheck "qdrant_reconciliation" false] := by
      unfold gateChecksE
      rw [ho, hdl, hold, hc4, hc5]
    have hrun : gateRun env = .completed
        [mkCheck "orphan_integrity" (o.1 + o.2.1 + o.2.2 = 0),
         dead_letter_check dl (as_int (env.envMaxDeadLetters.getD "0") 0),
         outbox_oldest_check old (as_int (env.envMaxOutboxOldest.getD "1800") 1800),
         c4, mkCheck "qdrant_reconciliation" false] := by
      unfold gateRun
      rw [if_neg hdb, hchecks]
    refine ⟨_, hrun, by simp, ?_⟩
    rw [gateExit_completed _ _ hrun]
    have hfail : allPassed
        [mkCheck "orphan_integrity" (o.1 + o.2.1 + o.2.2 = 0),
         dead_letter_check dl (as_int (env.envMaxDeadLetters.getD "0") 0),
         outbox_oldest_check old (as_int (env.envMaxOutboxOldest.getD "1800") 1800),
         c4, mkCheck "qdrant_reconciliation" false] = false := by
      simp [allPassed, mkCheck]
    rw [hfail]
    rfl

/-- **C4 witness** (for the amended statement). -/
theorem gate_exit_codes_witness :
    (∀ env2 : GateEnv, env2.databaseUrl = "" → gateExit env2 = 2) ∧
    (∀ env2 : GateEnv, env2.databaseUrl ≠ "" → env2.orphanRes = .error "psql failed" →
      gateExit env2 = 2) ∧
    (∀ env2 checks2, gateRun env2 = .completed checks2 →
      gateExit env2 = if allPassed checks2 then 0 else 1) ∧
    (∃ cs, gateRun gateDriftCrashEnv = .completed cs ∧
      mkCheck "qdrant_reconciliation" false ∈ cs ∧ gateExit gateDriftCrashEnv = 1) :=
  gate_exit_codes gateDriftCrashEnv (0, 0, 0) 0 0 0 "psql failed"
    (by decide) (by decide) rfl rfl rfl rfl rfl

end Akashi
